import Mathlib

/-!
Shallow embedding of the uns-cli transaction lifecycle orchestrator.

External collaborators (ledger query service, transaction builder,
interactive prompts) are modelled as explicit oracle fields of an `Env`
record; every embedded operation returns its result together with the
list of network calls it performed, so that claims about which lookups
happen (and in which cases) are statable.
-/

namespace UnsCli

/-- A transaction as reported by the ledger query service
(`unsClientWrapper.getTransaction`); only the confirmation count matters
to the embedded logic. -/
structure TransactionFromNetwork where
  confirmations : Nat
deriving DecidableEq, Repr

/-- JS `transactionFromNetwork?.confirmations ? transactionFromNetwork.confirmations : 0`
from `baseCommand.waitTransactionConfirmations`: a missing transaction, or a
falsy confirmation count, reads as 0. -/
def observedConfirmations : Option TransactionFromNetwork → Nat
  | some t => t.confirmations
  | none => 0

/-- `BaseCommand.waitTransactionConfirmations` (updatePropertiesCommand.ts
lines 223-240).  The ledger service is an oracle from the query index
(how many queries have been made so far) to the reported transaction; the
function returns the final observation together with the number of query
attempts it made.  The source recursion
`if (confirmations < expectedConfirmations && numberOfRetry > 0) recurse(numberOfRetry - 1)`
is rendered as structural recursion on `numberOfRetry`. -/
def waitTransactionConfirmations (getTransaction : Nat → Option TransactionFromNetwork)
    (expectedConfirmations : Nat) :
    Nat → Nat → Option TransactionFromNetwork × Nat
  | 0, queryIdx => (getTransaction queryIdx, 1)
  | numberOfRetry + 1, queryIdx =>
    let transactionFromNetwork := getTransaction queryIdx
    if observedConfirmations transactionFromNetwork < expectedConfirmations then
      let r := waitTransactionConfirmations getTransaction expectedConfirmations
        numberOfRetry (queryIdx + 1)
      (r.1, r.2 + 1)
    else
      (transactionFromNetwork, 1)

/-- Auxiliary: starting from any query index, if the first `k` observations
are below the target and the observation at offset `k` reaches it, polling
stops right there. -/
theorem waitTransactionConfirmations_hit_aux
    (getTransaction : Nat → Option TransactionFromNetwork)
    (expectedConfirmations : Nat) :
    ∀ k numberOfRetry start, k ≤ numberOfRetry →
    (∀ i, i < k → observedConfirmations (getTransaction (start + i)) < expectedConfirmations) →
    expectedConfirmations ≤ observedConfirmations (getTransaction (start + k)) →
    waitTransactionConfirmations getTransaction expectedConfirmations numberOfRetry start =
      (getTransaction (start + k), k + 1) := by
  intro k
  induction k with
  | zero =>
    intro numberOfRetry start _ _ hhit
    have hnot : ¬ observedConfirmations (getTransaction start) < expectedConfirmations := by
      simpa using hhit
    cases numberOfRetry with
    | zero => simp [waitTransactionConfirmations]
    | succ n => simp [waitTransactionConfirmations, hnot]
  | succ k ih =>
    intro numberOfRetry start hk hbefore hhit
    cases numberOfRetry with
    | zero => omega
    | succ n =>
      have h0 : observedConfirmations (getTransaction (start + 0)) < expectedConfirmations :=
        hbefore 0 (Nat.succ_pos k)
      have h0' : observedConfirmations (getTransaction start) < expectedConfirmations := by
        simpa using h0
      have hrec := ih n (start + 1) (Nat.le_of_succ_le_succ hk)
        (fun i hi => by
          have := hbefore (i + 1) (Nat.succ_lt_succ hi)
          simpa [Nat.add_assoc, Nat.add_comm, Nat.add_left_comm] using this)
        (by
          have : start + 1 + k = start + (k + 1) := by omega
          simpa [this] using hhit)
      have : start + 1 + k = start + (k + 1) := by omega
      simp [waitTransactionConfirmations, h0', hrec, this]

/-- Error taxonomy of the embedded commands.  The source throws plain
`Error` values distinguished by their messages and throw sites; each throw
site gets its own constructor here.  `typeError` stands for a JavaScript
runtime `TypeError` (e.g. reading a property of `null`), which is not an
error thrown by the code itself. -/
inductive CliError where
  | flagConsistency (awaitBlocks confirmationsWanted : Int)
  | unikidFormat
  | passphraseFormat
  | propertyFormat (key : String)
  | propertySeparatorMissing (prop : String)
  | targetFormat
  | resolutionFailed (msg : String)
  | rejected (errors : String)
  | invariantViolation
  | consistency
  | typeError
deriving DecidableEq, Repr

/-- JavaScript `String.prototype.split` with a single-character separator:
splits a character list at every occurrence of the separator, keeping empty
segments (so the empty list yields one empty segment, as `"".split` does). -/
def splitBy (p : Char → Bool) : List Char → List (List Char)
  | [] => [[]]
  | x :: xs =>
    match splitBy p xs with
    | r :: rs => if p x then [] :: r :: rs else (x :: r) :: rs
    | [] => [[]]

/-- JS `s.split(" ")` on the character data of a string. -/
def jsSplitSpace (s : String) : List String :=
  (splitBy (fun c => c == ' ') s.data).map String.mk

/-- `checkUnikIdFormat` (utils): `unikid && unikid.length === 64`, else a
format error. -/
def checkUnikIdFormat (unikid : String) : Except CliError Unit :=
  if !unikid.data.isEmpty && unikid.data.length == 64 then .ok ()
  else .error .unikidFormat

/-- `checkPassphraseFormat` (utils): `passphrase && passphrase.split(" ").length === 12`,
else a format error. -/
def checkPassphraseFormat (passphrase : String) : Except CliError Unit :=
  if !passphrase.data.isEmpty && (jsSplitSpace passphrase).length == 12 then .ok ()
  else .error .passphraseFormat

/-- First match of the regex `[a-zA-Z0-9]` character class used by
`checkUnikPropertyFormat`. -/
def isAlnumChar (c : Char) : Bool :=
  (('a' ≤ c && c ≤ 'z') || ('A' ≤ c && c ≤ 'Z') || ('0' ≤ c && c ≤ '9'))

/-- JS `propertyKey.match(/[a-zA-Z0-9]+/)`: the leftmost maximal run of
alphanumeric characters, or `none` when the string has no alphanumeric
character (in which case `match` returns `null`). -/
def firstAlnumRun (s : String) : Option String :=
  match s.data.dropWhile (fun c => !isAlnumChar c) with
  | [] => none
  | rest => some (String.mk (rest.takeWhile isAlnumChar))

/-- `checkUnikPropertyFormat` (utils):
`propertyKey && propertyKey.match(/[a-zA-Z0-9]+/)[0] === propertyKey`.
When `match` returns `null` the indexing `[0]` raises a JS `TypeError`;
otherwise a failed comparison raises the format error. -/
def checkUnikPropertyFormat (propertyKey : String) : Except CliError Unit :=
  if propertyKey.data.isEmpty then .error (.propertyFormat propertyKey)
  else
    match firstAlnumRun propertyKey with
    | none => .error .typeError
    | some m => if m == propertyKey then .ok () else .error (.propertyFormat propertyKey)

/-- `checkDataConsistency` (baseCommand): throws unless
`heights.every((v) => v === heights[0])`. -/
def checkDataConsistency (heights : List String) : Except CliError Unit :=
  if heights.all (fun v => heights.get? 0 == some v) then .ok ()
  else .error .consistency

/-- The reading of the spec sentence for claim C7: the number of
whitespace-delimited tokens of a string, i.e. maximal non-empty runs
delimited by whitespace characters. -/
def whitespaceTokenCount (s : String) : Nat :=
  ((splitBy Char.isWhitespace s.data).filter (fun t => !t.isEmpty)).length

/-- Ledger oracle for the scenario of spec property 6: successive queries
report the confirmation sequence 0, 1, 3. -/
def demoGetTransaction : Nat → Option TransactionFromNetwork
  | 0 => some ⟨0⟩
  | 1 => some ⟨1⟩
  | _ => some ⟨3⟩

/-- Constant ledger oracle: every query reports the same transaction with
confirmation count `c`. -/
def constGetTransaction (c : Nat) : Nat → Option TransactionFromNetwork :=
  fun _ => some ⟨c⟩

/-- Claim C1: polling stops at the first query whose observed confirmation
count reaches the target, before exhausting the retry budget: if the first
`k` observations are below `expectedConfirmations` and observation `k`
reaches it (with `k` within the retry budget), the tracker performs exactly
`k + 1` queries and returns that observation. -/
theorem waitTransactionConfirmations_stops_at_first_hit
    (getTransaction : Nat → Option TransactionFromNetwork)
    (expectedConfirmations numberOfRetry k : Nat)
    (hk : k ≤ numberOfRetry)
    (hbefore : ∀ i, i < k →
      observedConfirmations (getTransaction i) < expectedConfirmations)
    (hhit : expectedConfirmations ≤ observedConfirmations (getTransaction k)) :
    waitTransactionConfirmations getTransaction expectedConfirmations numberOfRetry 0 =
      (getTransaction k, k + 1) := by
  have := waitTransactionConfirmations_hit_aux getTransaction expectedConfirmations
    k numberOfRetry 0 hk (by simpa using hbefore) (by simpa using hhit)
  simpa using this

/-- Witness for C1: with `targetConfirmations = 3`, `maxRetries = 3` and the
ledger reporting the sequence 0, 1, 3, the tracker returns confirmations 3
after exactly 3 queries (not 4). -/
theorem waitTransactionConfirmations_stops_at_first_hit_witness :
    waitTransactionConfirmations demoGetTransaction 3 3 0 = (some ⟨3⟩, 3) := by
  have h := waitTransactionConfirmations_stops_at_first_hit demoGetTransaction 3 3 2
    (by decide) (by decide) (by decide)
  simpa [demoGetTransaction] using h

/-- Counterexample to claim C2 as stated: with the ledger reporting the same
confirmation count 5 on every query, `maxRetries = 3` and
`targetConfirmations = 3`, the tracker performs 1 query attempt, not
`maxRetries + 1 = 4`. -/
theorem waitTransactionConfirmations_constant_counterexample :
    (waitTransactionConfirmations (constGetTransaction 5) 3 3 0).2 = 1 ∧
      (1 : Nat) ≠ 3 + 1 := by
  constructor
  · rfl
  · decide

/-- Claim C2 (amended): if the ledger reports the same confirmation count `c`
on every query and `c` is below the target, the tracker performs exactly
`maxRetries + 1` query attempts and returns that unchanged count. -/
theorem waitTransactionConfirmations_constant_exhausts
    (c expectedConfirmations : Nat) (h : c < expectedConfirmations)
    (numberOfRetry start : Nat) :
    waitTransactionConfirmations (constGetTransaction c) expectedConfirmations
      numberOfRetry start = (some ⟨c⟩, numberOfRetry + 1) := by
  induction numberOfRetry generalizing start with
  | zero => simp [waitTransactionConfirmations, constGetTransaction]
  | succ n ih =>
    simp [waitTransactionConfirmations, constGetTransaction, observedConfirmations,
      h, ih (start + 1)]

/-- Witness for the amended C2: a constant count of 1 with target 3 and
retry budget 2 yields exactly 3 query attempts and the unchanged count 1. -/
theorem waitTransactionConfirmations_constant_exhausts_witness :
    waitTransactionConfirmations (constGetTransaction 1) 3 2 0 = (some ⟨1⟩, 3) :=
  waitTransactionConfirmations_constant_exhausts 1 3 (by decide) 2 0

/-- Counterexample to claim C7 as stated: the string
`"a\tb c d e f g h i j k l"` splits into exactly 12 whitespace-delimited
tokens (the tab between `a` and `b` is whitespace), yet
`checkPassphraseFormat` raises the format error, because the code splits on
the single space character only. -/
theorem checkPassphraseFormat_counterexample :
    whitespaceTokenCount "a\tb c d e f g h i j k l" = 12 ∧
      checkPassphraseFormat "a\tb c d e f g h i j k l" = .error .passphraseFormat := by
  constructor
  · rfl
  · rfl

/-- Claim C7 (amended): `checkPassphraseFormat` raises the format error
exactly when the string does not split into 12 segments on single space
characters, counting empty segments (the empty string yields one segment
and therefore fails). -/
theorem checkPassphraseFormat_amended (s : String) :
    checkPassphraseFormat s = .error .passphraseFormat ↔
      (jsSplitSpace s).length ≠ 12 := by
  unfold checkPassphraseFormat
  cases hs : s.data with
  | nil =>
    have h1 : (jsSplitSpace s).length = 1 := by
      simp [jsSplitSpace, hs, splitBy]
    simp [hs, h1]
  | cons c cs =>
    have hne : s.data.isEmpty = false := by simp [hs]
    by_cases h12 : (jsSplitSpace s).length = 12
    · simp [hne, h12, hs]
    · simp [hne, h12, hs]

/-- Claim C8, behaviour at the failing input: a property key with no
alphanumeric character at all makes `propertyKey.match(/[a-zA-Z0-9]+/)`
return `null`, so the indexing `[0]` raises a JS `TypeError` instead of the
format error the claim promises. -/
theorem checkUnikPropertyFormat_null_match :
    checkUnikPropertyFormat "---" = .error .typeError ∧
      ∀ k, CliError.typeError ≠ CliError.propertyFormat k := by
  constructor
  · rfl
  · intro k h
    cases h

/-- Claim C9: `checkDataConsistency` fails with the consistency error
exactly when the fetched heights are not all equal, and passes exactly when
they all agree. -/
theorem checkDataConsistency_iff (heights : List String) :
    (checkDataConsistency heights = .ok () ↔
      ∀ x ∈ heights, ∀ y ∈ heights, x = y) ∧
    (checkDataConsistency heights = .error .consistency ↔
      ¬ ∀ x ∈ heights, ∀ y ∈ heights, x = y) := by
  have key : (heights.all (fun v => heights.get? 0 == some v) = true) ↔
      ∀ x ∈ heights, ∀ y ∈ heights, x = y := by
    cases heights with
    | nil => simp
    | cons a t =>
      simp only [List.all_eq_true, List.get?, beq_iff_eq, Option.some.injEq]
      constructor
      · intro h x hx y hy
        have hax : a = x := h x hx
        have hay : a = y := h y hy
        rw [← hax, ← hay]
      · intro h v hv
        exact h a (List.mem_cons_self a t) v hv
  constructor
  · unfold checkDataConsistency
    by_cases hc : heights.all (fun v => heights.get? 0 == some v) = true
    · rw [if_pos hc]
      exact iff_of_true rfl (key.mp hc)
    · rw [if_neg hc]
      exact iff_of_false (by simp) (fun h => hc (key.mpr h))
  · unfold checkDataConsistency
    by_cases hc : heights.all (fun v => heights.get? 0 == some v) = true
    · rw [if_pos hc]
      exact iff_of_false (by simp) (not_not_intro (key.mp hc))
    · rw [if_neg hc]
      exact iff_of_true rfl (fun h => hc (key.mpr h))

/-- Chain metadata returned alongside ledger responses. -/
structure ChainMeta where
  height : String
  network : String
deriving DecidableEq, Repr

/-- Wallet record returned by `unsClientWrapper.getWallet`. -/
structure Wallet where
  publicKey : String
  secondPublicKey : Option String
  isDelegate : Bool
deriving DecidableEq, Repr

/-- Wallet derived locally from a passphrase by the external
`getWalletFromPassphrase` helper. -/
structure CryptoWallet where
  address : String
  publicKey : String
deriving DecidableEq, Repr

/-- Response of `unsClientWrapper.getUnikById`. -/
structure UnikByIdResponse where
  ownerId : String
  chainmeta : ChainMeta
  transactions : Option (List String)
deriving DecidableEq, Repr

/-- Response of the `resolveUnikName` lookup: an optional resolution-layer
error, and otherwise the resolved data with its chain metadata. -/
structure ResolveResponse where
  errorField : Option String
  unikid : String
  ownerAddress : String
  chainmeta : ChainMeta
deriving DecidableEq, Repr

/-- `UnikInfos` as returned by `BaseCommand.targetResolve`. -/
structure UnikInfos where
  unikid : String
  ownerAddress : String
  chainmeta : ChainMeta
  transactions : Option (List String)
deriving DecidableEq, Repr

/-- A composed transaction structure; only the optional `id` is observed by
the embedded orchestration. -/
structure TxStruct where
  id : Option String
deriving DecidableEq, Repr

/-- Response of `sendTransaction`: an optional ledger-reported error list. -/
structure SendResult where
  errors : Option String
deriving DecidableEq, Repr

/-- The result shape `{ id, transaction, confirmations }` produced by the
property-update command. -/
structure CommandOutput where
  id : String
  transaction : String
  confirmations : Nat
deriving DecidableEq, Repr

/-- `CryptoAccountPassphrases`: the collected passphrase pair. -/
structure CryptoAccountPassphrases where
  first : String
  second : Option String
deriving DecidableEq, Repr

/-- One network call made against the ledger service. -/
inductive NetCall where
  | getUnikById (id : String)
  | resolveName (target : String)
  | getWallet (address : String)
  | getNonce (address : String)
  | sendTransaction (txId : Option String)
  | getTransaction (queryIdx : Nat)
deriving DecidableEq, Repr

/-- The external collaborators of the orchestrator, as oracles: interactive
prompts, local key derivation, the ledger query service and the transaction
builder.  Every field is a fixed function, so each collaborator is
deterministic for the duration of one command, matching the single-command
lifetime of the source objects. -/
structure Env where
  promptedPassphrase : String
  promptedSecondPassphrase : String
  addressFromPassphrase : String → String
  getWalletFromPassphrase : String → CryptoWallet
  getWallet : String → Option Wallet
  getNonce : String → Nat
  getUnikById : String → UnikByIdResponse
  resolveUnikName : String → ResolveResponse
  createNFTUpdateTransactionV1 : String → List (String × String) → Int → Nat → String → TxStruct
  createNFTUpdateTransactionV2 :
    String → List (String × Option String) → Int → Nat → String → Option String → TxStruct
  sendTransaction : TxStruct → SendResult
  getTransaction : Nat → Option TransactionFromNetwork
  apiVersion : Nat

/-- JS truthiness of an optional string flag: absent and empty are falsy. -/
def jsTruthy : Option String → Bool
  | none => false
  | some s => !s.data.isEmpty

/-- `let x = flag; if (!x) x = fallback`: resolve an optional flag against
a fallback (e.g. an interactive prompt). -/
def jsResolve (flag : Option String) (fallback : String) : String :=
  match flag with
  | some s => if s.data.isEmpty then fallback else s
  | none => fallback

/-- Modelled from the spec: `isTokenId` is imported from `utils` whose
definition is not under src/ (only its callers are).  Spec section 3: a raw
token identifier is a 64-character fixed-format hexadecimal string. -/
def isHexChar (c : Char) : Bool :=
  ('0' ≤ c && c ≤ '9') || ('a' ≤ c && c ≤ 'f') || ('A' ≤ c && c ≤ 'F')

/-- Modelled from the spec: classification of a raw token identifier
(64 hexadecimal characters). -/
def isTokenId (s : String) : Bool :=
  s.data.length == 64 && s.data.all isHexChar

/-- Modelled from the spec: `isDid` is imported from `utils` whose
definition is not under src/.  Spec section 3: a symbolic name is the
prefixed form starting with the `@` character. -/
def isDid (s : String) : Bool :=
  s.data.head? == some '@'

/-- A symbolic name never classifies as a raw token identifier: its leading
`@` is not a hexadecimal character. -/
theorem isDid_isTokenId_false (s : String) (h : isDid s = true) :
    isTokenId s = false := by
  unfold isDid at h
  unfold isTokenId
  cases hs : s.data with
  | nil => simp [hs] at h
  | cons c cs =>
    rw [hs] at h
    have hc : c = '@' := by simpa using h
    subst hc
    simp [List.all_cons, isHexChar]

/-- `BaseCommand.targetResolve` (updatePropertiesCommand.ts lines 251-276):
classify the target, then either query the entity by identifier, or run the
name-resolution lookup (surfacing its error field as a thrown error), or
fail with the format error without any lookup. -/
def targetResolve (env : Env) (target : String) :
    Except CliError UnikInfos × List NetCall :=
  if isTokenId target then
    let unikInfos := env.getUnikById target
    (.ok ⟨target, unikInfos.ownerId, unikInfos.chainmeta, unikInfos.transactions⟩,
      [.getUnikById target])
  else if isDid target then
    let resolved := env.resolveUnikName target
    match resolved.errorField with
    | some e => (.error (.resolutionFailed e), [.resolveName target])
    | none =>
      (.ok ⟨resolved.unikid, resolved.ownerAddress, resolved.chainmeta, none⟩,
        [.resolveName target])
  else
    (.error .targetFormat, [])

/-- Claim C4: the resolution paths are mutually exclusive.  A target
classified as a raw token identifier triggers exactly one identifier lookup
and no name resolution; a target classified as a symbolic name triggers
exactly one name resolution and no identifier lookup; anything else is the
format error with no lookup at all. -/
theorem targetResolve_exclusive_paths (env : Env) (target : String) :
    (isTokenId target = true →
      (targetResolve env target).2 = [NetCall.getUnikById target]) ∧
    (isDid target = true →
      (targetResolve env target).2 = [NetCall.resolveName target]) ∧
    (isTokenId target = false → isDid target = false →
      targetResolve env target = (.error .targetFormat, [])) := by
  refine ⟨?_, ?_, ?_⟩
  · intro h
    simp [targetResolve, h]
  · intro h
    have hnot := isDid_isTokenId_false target h
    cases he : (env.resolveUnikName target).errorField with
    | none => simp [targetResolve, hnot, h, he]
    | some e => simp [targetResolve, hnot, h, he]
  · intro h1 h2
    simp [targetResolve, h1, h2]

/-- `BaseCommand.getNextWalletNonceFromPassphrase` (updatePropertiesCommand.ts
lines 320-325): derive the wallet from the passphrase, query its current
nonce, return it plus one. -/
def getNextWalletNonceFromPassphrase (env : Env) (passphrase : String) :
    Nat × List NetCall :=
  let wallet := env.getWalletFromPassphrase passphrase
  (env.getNonce wallet.address + 1, [.getNonce wallet.address])

/-- Claim C5: whenever the ledger reports nonce `n` for the account address
derived deterministically from the passphrase, the nonce resolver returns
`n + 1`, and the only query it makes targets that derived address. -/
theorem getNextWalletNonceFromPassphrase_succ (env : Env) (passphrase : String)
    (n : Nat)
    (h : env.getNonce ((env.getWalletFromPassphrase passphrase).address) = n) :
    (getNextWalletNonceFromPassphrase env passphrase).1 = n + 1 ∧
    (getNextWalletNonceFromPassphrase env passphrase).2 =
      [NetCall.getNonce ((env.getWalletFromPassphrase passphrase).address)] := by
  constructor
  · simp [getNextWalletNonceFromPassphrase, h]
  · rfl

/-- A 12-word passphrase used by concrete witnesses. -/
def passphrase12 : String := "w1 w2 w3 w4 w5 w6 w7 w8 w9 w10 w11 w12"

/-- A well-formed 64-character token identifier used by concrete witnesses. -/
def tokenId64 : String := String.mk (List.replicate 64 'a')

/-- A concrete environment used by the witnesses: fixed prompt answers, a
fixed derived address, nonce 7, a wallet without a second public key, a
builder that assigns transaction id "TX", and a ledger that accepts
submissions. -/
def env0 : Env where
  promptedPassphrase := passphrase12
  promptedSecondPassphrase := passphrase12
  addressFromPassphrase := fun _ => "ADDR"
  getWalletFromPassphrase := fun _ => ⟨"ADDR", "PUB"⟩
  getWallet := fun _ => some ⟨"PUB", none, true⟩
  getNonce := fun _ => 7
  getUnikById := fun _ => ⟨"OWNER", ⟨"42", "livenet"⟩, none⟩
  resolveUnikName := fun _ => ⟨none, "UID", "OWNER", ⟨"42", "livenet"⟩⟩
  createNFTUpdateTransactionV1 := fun _ _ _ _ _ => ⟨some "TX"⟩
  createNFTUpdateTransactionV2 := fun _ _ _ _ _ _ => ⟨some "TX"⟩
  sendTransaction := fun _ => ⟨none⟩
  getTransaction := fun _ => some ⟨1⟩
  apiVersion := 2

/-- Witness for C4: a 64-hex target triggers only the identifier lookup, an
`@`-prefixed target triggers only the name resolution, and a target of
neither shape yields the format error without any lookup. -/
theorem targetResolve_exclusive_paths_witness :
    (targetResolve env0 tokenId64).2 = [NetCall.getUnikById tokenId64] ∧
    (targetResolve env0 "@bob").2 = [NetCall.resolveName "@bob"] ∧
    targetResolve env0 "xyz" = (.error .targetFormat, []) :=
  ⟨(targetResolve_exclusive_paths env0 tokenId64).1 (by decide),
   (targetResolve_exclusive_paths env0 "@bob").2.1 (by decide),
   (targetResolve_exclusive_paths env0 "xyz").2.2 (by decide) (by decide)⟩

/-- Witness for C5: with the ledger reporting nonce 7 for the derived
address, the resolver returns 8 and queries exactly that address. -/
theorem getNextWalletNonceFromPassphrase_succ_witness :
    (getNextWalletNonceFromPassphrase env0 passphrase12).1 = 7 + 1 ∧
    (getNextWalletNonceFromPassphrase env0 passphrase12).2 =
      [NetCall.getNonce "ADDR"] := by
  have h := getNextWalletNonceFromPassphrase_succ env0 passphrase12 7 rfl
  exact ⟨h.1, h.2.trans rfl⟩

/-- `BaseCommand.applyWalletPredicate` (updatePropertiesCommand.ts lines
356-367): fetch the wallet and apply the predicate; an HTTP-not-found
answer (here `none`) is caught and yields `false`. -/
def applyWalletPredicate (env : Env) (recipientId : String)
    (predicate : Wallet → Bool) : Bool × List NetCall :=
  match env.getWallet recipientId with
  | some wallet => (predicate wallet, [.getWallet recipientId])
  | none => (false, [.getWallet recipientId])

/-- `BaseCommand.hasSecondPassphrase` (updatePropertiesCommand.ts lines
372-375): derive the account address from the passphrase and test whether
the wallet record declares a second public key. -/
def hasSecondPassphrase (env : Env) (passphrase : String) : Bool × List NetCall :=
  applyWalletPredicate env (env.addressFromPassphrase passphrase)
    (fun wallet => wallet.secondPublicKey.isSome)

/-- The `if (!secondPassphrase && (await this.hasSecondPassphrase(passphrase)))`
step of `askForPassphrases`: when no second passphrase was supplied, look
the wallet up and prompt for one exactly if the wallet requires it. -/
def determineSecondPassphrase (env : Env) (passphrase : String)
    (flagSecondPassphrase : Option String) : Option String × List NetCall :=
  if !jsTruthy flagSecondPassphrase then
    let hs := hasSecondPassphrase env passphrase
    (if hs.1 then some env.promptedSecondPassphrase else flagSecondPassphrase, hs.2)
  else (flagSecondPassphrase, [])

/-- Body of `askForPassphrases` after the first passphrase has been
resolved against the interactive prompt. -/
def askForPassphrasesResolved (env : Env) (passphrase : String)
    (flagSecondPassphrase : Option String) (checkSecondPassphrase : Bool) :
    Except CliError CryptoAccountPassphrases × List NetCall :=
  match checkPassphraseFormat passphrase with
  | .error e => (.error e, [])
  | .ok _ =>
    if checkSecondPassphrase then
      if jsTruthy (determineSecondPassphrase env passphrase flagSecondPassphrase).1 then
        match checkPassphraseFormat
            ((determineSecondPassphrase env passphrase flagSecondPassphrase).1.getD "") with
        | .error e => (.error e, (determineSecondPassphrase env passphrase flagSecondPassphrase).2)
        | .ok _ =>
          (.ok ⟨passphrase, (determineSecondPassphrase env passphrase flagSecondPassphrase).1⟩,
            (determineSecondPassphrase env passphrase flagSecondPassphrase).2)
      else
        (.ok ⟨passphrase, (determineSecondPassphrase env passphrase flagSecondPassphrase).1⟩,
          (determineSecondPassphrase env passphrase flagSecondPassphrase).2)
    else (.ok ⟨passphrase, flagSecondPassphrase⟩, [])

/-- `BaseCommand.askForPassphrases` (updatePropertiesCommand.ts lines
377-399): resolve the first passphrase (prompting when the flag is falsy),
validate its format, and when `checkSecondPassphrase` is set, determine the
second passphrase (see `determineSecondPassphrase`) and validate it if
present.  When `checkSecondPassphrase` is unset, the supplied second
passphrase is returned untouched. -/
def askForPassphrases (env : Env) (flagPassphrase flagSecondPassphrase : Option String)
    (checkSecondPassphrase : Bool := true) :
    Except CliError CryptoAccountPassphrases × List NetCall :=
  askForPassphrasesResolved env (jsResolve flagPassphrase env.promptedPassphrase)
    flagSecondPassphrase checkSecondPassphrase

/-- The wallet lookup of `hasSecondPassphrase` always queries exactly the
address derived from the passphrase. -/
theorem hasSecondPassphrase_trace (env : Env) (passphrase : String) :
    (hasSecondPassphrase env passphrase).2 =
      [NetCall.getWallet (env.addressFromPassphrase passphrase)] := by
  unfold hasSecondPassphrase applyWalletPredicate
  cases env.getWallet (env.addressFromPassphrase passphrase) <;> rfl

/-- The second-passphrase determination queries the wallet exactly when the
flag-supplied second passphrase is falsy. -/
theorem determineSecondPassphrase_trace (env : Env) (passphrase : String)
    (flagSecondPassphrase : Option String) :
    (determineSecondPassphrase env passphrase flagSecondPassphrase).2 =
      (if jsTruthy flagSecondPassphrase then []
       else [NetCall.getWallet (env.addressFromPassphrase passphrase)]) := by
  unfold determineSecondPassphrase
  cases htr : jsTruthy flagSecondPassphrase with
  | true => simp [htr]
  | false => simp [htr, hasSecondPassphrase_trace]

/-- In the branch where a second passphrase is being determined and
validated, the trace of `askForPassphrases` is exactly the trace of the
determination step. -/
theorem askForPassphrases_trace (env : Env)
    (flagPassphrase flagSecondPassphrase : Option String)
    (checkSecondPassphrase : Bool) :
    (askForPassphrases env flagPassphrase flagSecondPassphrase checkSecondPassphrase).2 = [] ∨
    ∃ a, (askForPassphrases env flagPassphrase flagSecondPassphrase checkSecondPassphrase).2 =
      [NetCall.getWallet a] := by
  unfold askForPassphrases askForPassphrasesResolved
  cases hfmt : checkPassphraseFormat (jsResolve flagPassphrase env.promptedPassphrase) with
  | error e => simp [hfmt]
  | ok u =>
    simp only [hfmt]
    cases checkSecondPassphrase with
    | false => simp
    | true =>
      simp only [if_true]
      have htrace := determineSecondPassphrase_trace env
        (jsResolve flagPassphrase env.promptedPassphrase) flagSecondPassphrase
      cases htr : jsTruthy flagSecondPassphrase with
      | true =>
        rw [htr, if_pos rfl] at htrace
        split
        · split <;> simp [htrace]
        · simp [htrace]
      | false =>
        rw [htr] at htrace
        simp only [Bool.false_eq_true, if_false] at htrace
        split
        · split <;> exact Or.inr ⟨_, htrace⟩
        · exact Or.inr ⟨_, htrace⟩

/-- Claim C10: the wallet lookup deciding whether a second passphrase is
required happens only when `checkSecondPassphrase` is true and no second
passphrase was supplied via flags; and with `checkSecondPassphrase` false,
a supplied second passphrase is returned unvalidated (for every flag value,
well-formed or not) with no network call. -/
theorem askForPassphrases_wallet_lookup_policy (env : Env)
    (flagPassphrase flagSecondPassphrase : Option String)
    (checkSecondPassphrase : Bool) :
    ((∃ a, NetCall.getWallet a ∈
        (askForPassphrases env flagPassphrase flagSecondPassphrase checkSecondPassphrase).2) →
      checkSecondPassphrase = true ∧ jsTruthy flagSecondPassphrase = false) ∧
    (checkSecondPassphrase = false →
      checkPassphraseFormat (jsResolve flagPassphrase env.promptedPassphrase) = .ok () →
      askForPassphrases env flagPassphrase flagSecondPassphrase checkSecondPassphrase =
        (.ok ⟨jsResolve flagPassphrase env.promptedPassphrase, flagSecondPassphrase⟩, [])) := by
  have hempty1 : checkSecondPassphrase = false →
      (askForPassphrases env flagPassphrase flagSecondPassphrase checkSecondPassphrase).2 = [] := by
    intro h
    subst h
    unfold askForPassphrases askForPassphrasesResolved
    cases hfmt : checkPassphraseFormat (jsResolve flagPassphrase env.promptedPassphrase) with
    | error e => simp [hfmt]
    | ok u => simp [hfmt]
  have hempty2 : jsTruthy flagSecondPassphrase = true →
      (askForPassphrases env flagPassphrase flagSecondPassphrase checkSecondPassphrase).2 = [] := by
    intro htr
    unfold askForPassphrases askForPassphrasesResolved
    have htrace := determineSecondPassphrase_trace env
      (jsResolve flagPassphrase env.promptedPassphrase) flagSecondPassphrase
    rw [htr, if_pos rfl] at htrace
    cases hfmt : checkPassphraseFormat (jsResolve flagPassphrase env.promptedPassphrase) with
    | error e => simp [hfmt]
    | ok u =>
      simp only [hfmt]
      cases checkSecondPassphrase with
      | false => simp
      | true =>
        simp only [if_true]
        split
        · split <;> simp [htrace]
        · simp [htrace]
  refine ⟨?_, ?_⟩
  · rintro ⟨a, ha⟩
    refine ⟨?_, ?_⟩
    · cases hcs : checkSecondPassphrase with
      | true => rfl
      | false =>
        rw [hempty1 hcs] at ha
        cases ha
    · cases htr : jsTruthy flagSecondPassphrase with
      | false => rfl
      | true =>
        rw [hempty2 htr] at ha
        cases ha
  · intro hcs hfmt
    subst hcs
    unfold askForPassphrases askForPassphrasesResolved
    simp [hfmt]

/-- Witness for C10: with `checkSecondPassphrase` true and no second
passphrase flag, a wallet lookup happens (so the implication fires at a
satisfied hypothesis); with `checkSecondPassphrase` false, a malformed
second passphrase flag is returned untouched with no network call. -/
theorem askForPassphrases_wallet_lookup_policy_witness :
    (true = true ∧ jsTruthy (none : Option String) = false) ∧
    askForPassphrases env0 (some passphrase12) (some "xx") false =
      (.ok ⟨passphrase12, some "xx"⟩, []) := by
  refine ⟨?_, ?_⟩
  · exact (askForPassphrases_wallet_lookup_policy env0 (some passphrase12) none true).1
      ⟨"ADDR", by decide⟩
  · exact (askForPassphrases_wallet_lookup_policy env0 (some passphrase12) (some "xx") false).2
      rfl rfl

/-- JS object assignment `properties[key] = value`: a later value for an
existing key overwrites it, otherwise the pair is appended. -/
def objInsert (properties : List (String × String)) (key value : String) :
    List (String × String) :=
  if properties.any (fun p => p.1 == key) then
    properties.map (fun p => if p.1 == key then (key, value) else p)
  else properties ++ [(key, value)]

/-- `SetPropertiesCommand.parseProperties`: each `"key:value"` entry is
split at the first `:`; an entry without a separator is an error.  The
accumulator threads the object built so far, as the source for-loop does. -/
def parseProperties (properties : List (String × String)) :
    List String → Except CliError (List (String × String))
  | [] => .ok properties
  | prop :: rest =>
    match prop.data.findIdx? (fun c => c == ':') with
    | none => .error (.propertySeparatorMissing prop)
    | some i =>
      parseProperties
        (objInsert properties (String.mk (prop.data.take i))
          (String.mk (prop.data.drop (i + 1)))) rest

/-- Flags of the `set-properties` command (oclif integer flags may carry
any integer, so they embed as `Int`).  The field `awaitBlocks` renders the
source flag named `await`. -/
structure SetPropertiesFlags where
  awaitBlocks : Int
  confirmations : Int
  unikid : String
  properties : List String
  passphrase : Option String
  fee : Int

/-- Tail of `SetPropertiesCommand.do` after all local validation: build the
update transaction, submit it (a ledger-reported error list is the
rejection error), then poll for confirmations; reading `.id` of an absent
final transaction is a JS `TypeError`. -/
def setPropertiesSend (env : Env) (flags : SetPropertiesFlags) (passphrase : String)
    (properties : List (String × String)) : Except CliError Unit × List NetCall :=
  match (env.sendTransaction (env.createNFTUpdateTransactionV1 flags.unikid properties
      flags.fee env.apiVersion passphrase)).errors with
  | some errs =>
    (.error (.rejected errs),
      [.sendTransaction (env.createNFTUpdateTransactionV1 flags.unikid properties
        flags.fee env.apiVersion passphrase).id])
  | none =>
    match waitTransactionConfirmations env.getTransaction flags.confirmations.toNat
        flags.awaitBlocks.toNat 0 with
    | (none, n) =>
      (.error .typeError,
        .sendTransaction (env.createNFTUpdateTransactionV1 flags.unikid properties
          flags.fee env.apiVersion passphrase).id :: (List.range n).map NetCall.getTransaction)
    | (some _, n) =>
      (.ok (),
        .sendTransaction (env.createNFTUpdateTransactionV1 flags.unikid properties
          flags.fee env.apiVersion passphrase).id :: (List.range n).map NetCall.getTransaction)

/-- `SetPropertiesCommand.do`: first the flag-consistency guard
(`flags.await <= flags.confirmations` is an immediate error), then unikid
format, passphrase collection and format, property parsing, and only then
the network interaction of `setPropertiesSend`. -/
def setPropertiesDo (env : Env) (flags : SetPropertiesFlags) :
    Except CliError Unit × List NetCall :=
  if flags.awaitBlocks ≤ flags.confirmations then
    (.error (.flagConsistency flags.awaitBlocks flags.confirmations), [])
  else
    match checkUnikIdFormat flags.unikid with
    | .error e => (.error e, [])
    | .ok _ =>
      match checkPassphraseFormat (jsResolve flags.passphrase env.promptedPassphrase) with
      | .error e => (.error e, [])
      | .ok _ =>
        match parseProperties [] flags.properties with
        | .error e => (.error e, [])
        | .ok properties =>
          setPropertiesSend env flags (jsResolve flags.passphrase env.promptedPassphrase)
            properties

/-- The unikid format check only ever raises the unikid format error. -/
theorem checkUnikIdFormat_error_eq (unikid : String) (e : CliError)
    (h : checkUnikIdFormat unikid = .error e) : e = .unikidFormat := by
  unfold checkUnikIdFormat at h
  split at h
  · cases h
  · exact (Except.error.inj h).symm

/-- The passphrase format check only ever raises the passphrase format
error. -/
theorem checkPassphraseFormat_error_eq (passphrase : String) (e : CliError)
    (h : checkPassphraseFormat passphrase = .error e) : e = .passphraseFormat := by
  unfold checkPassphraseFormat at h
  split at h
  · cases h
  · exact (Except.error.inj h).symm

/-- Property parsing only ever raises the missing-separator error. -/
theorem parseProperties_error_shape :
    ∀ (props : List String) (properties : List (String × String)) (e : CliError),
    parseProperties properties props = .error e →
    ∃ p, e = .propertySeparatorMissing p := by
  intro props
  induction props with
  | nil =>
    intro properties e h
    cases h
  | cons prop rest ih =>
    intro properties e h
    unfold parseProperties at h
    cases hidx : prop.data.findIdx? (fun c => c == ':') with
    | none =>
      rw [hidx] at h
      exact ⟨prop, (Except.error.inj h).symm⟩
    | some i =>
      rw [hidx] at h
      exact ih _ e h

/-- The network tail of the command never raises the flag-consistency
error. -/
theorem setPropertiesSend_no_flagConsistency (env : Env) (flags : SetPropertiesFlags)
    (passphrase : String) (properties : List (String × String)) (a c : Int) :
    (setPropertiesSend env flags passphrase properties).1 ≠
      .error (.flagConsistency a c) := by
  unfold setPropertiesSend
  split
  · simp
  · split <;> simp

/-- Claim C3: with `await <= confirmations` the command fails with the
flag-consistency error before any network call (the trace is empty); with
`await > confirmations` the guard passes and the command never raises a
flag-consistency error. -/
theorem setPropertiesDo_flag_guard (env : Env) (flags : SetPropertiesFlags) :
    (flags.awaitBlocks ≤ flags.confirmations →
      setPropertiesDo env flags =
        (.error (.flagConsistency flags.awaitBlocks flags.confirmations), [])) ∧
    (flags.confirmations < flags.awaitBlocks →
      ∀ a c, (setPropertiesDo env flags).1 ≠ .error (.flagConsistency a c)) := by
  constructor
  · intro h
    unfold setPropertiesDo
    rw [if_pos h]
  · intro h a c
    unfold setPropertiesDo
    rw [if_neg (not_le.mpr h)]
    cases hu : checkUnikIdFormat flags.unikid with
    | error e =>
      have he := checkUnikIdFormat_error_eq flags.unikid e hu
      subst he
      simp
    | ok u1 =>
      cases hp : checkPassphraseFormat (jsResolve flags.passphrase env.promptedPassphrase) with
      | error e =>
        have he := checkPassphraseFormat_error_eq _ e hp
        subst he
        simp [hp]
      | ok u2 =>
        cases hpp : parseProperties [] flags.properties with
        | error e =>
          obtain ⟨p, hep⟩ := parseProperties_error_shape flags.properties [] e hpp
          subst hep
          simp [hp, hpp]
        | ok properties =>
          simp only [hp, hpp]
          exact setPropertiesSend_no_flagConsistency env flags _ properties a c

/-- Contradictory wait flags used by the C3 witness: `await = 1`,
`confirmations = 1`. -/
def flagsContradictory : SetPropertiesFlags :=
  ⟨1, 1, tokenId64, ["k:v"], some passphrase12, 100000000⟩

/-- Consistent wait flags used by the C3 witness: `await = 3`,
`confirmations = 1`. -/
def flagsConsistent : SetPropertiesFlags :=
  ⟨3, 1, tokenId64, ["k:v"], some passphrase12, 100000000⟩

/-- Witness for C3: `await = 1, confirmations = 1` fails with the
flag-consistency error and an empty network trace, while
`await = 3, confirmations = 1` never produces a flag-consistency error. -/
theorem setPropertiesDo_flag_guard_witness :
    setPropertiesDo env0 flagsContradictory = (.error (.flagConsistency 1 1), []) ∧
    (setPropertiesDo env0 flagsConsistent).1 ≠ .error (.flagConsistency 3 1) := by
  constructor
  · exact (setPropertiesDo_flag_guard env0 flagsContradictory).1 (by decide)
  · exact (setPropertiesDo_flag_guard env0 flagsConsistent).2 (by decide) 3 1

/-- Flags shared by the property-update commands. -/
structure UpdateFlags where
  unikid : String
  passphrase : Option String
  secondPassphrase : Option String
  fee : Int
  awaitBlocks : Int
  confirmations : Int

/-- Modelled from the spec: `WriteCommand.sendAndWaitConfirmationsIfNeeded`
is not under src/ (only its callers are).  Spec sections 4.4 and 4.5: submit
the composed transaction, failing with the rejection error carrying the
ledger-reported error list if the network refuses it; then, unless an
immediate return was requested, poll for confirmations with the await and
confirmations flags via `waitTransactionConfirmations`. -/
def sendAndWaitConfirmationsIfNeeded (env : Env) (transactionStruct : TxStruct)
    (awaitBlocks confirmations : Int) :
    Except CliError (Option TransactionFromNetwork) × List NetCall :=
  match (env.sendTransaction transactionStruct).errors with
  | some errs => (.error (.rejected errs), [.sendTransaction transactionStruct.id])
  | none =>
    if awaitBlocks = 0 then (.ok none, [.sendTransaction transactionStruct.id])
    else
      match waitTransactionConfirmations env.getTransaction confirmations.toNat
          awaitBlocks.toNat 0 with
      | (t, n) =>
        (.ok t, .sendTransaction transactionStruct.id ::
          (List.range n).map NetCall.getTransaction)

/-- `PropertiesUpdateCommand.do` (updatePropertiesCommand.ts lines 16-51):
check the unikid format, collect the passphrases, read the next wallet
nonce, compose the update transaction, abort with the invariant-violation
error when the composed structure has no id, and only otherwise submit and
await confirmations.  The abstract `getProperties` result is a parameter. -/
def propertiesUpdateDo (env : Env) (flags : UpdateFlags)
    (properties : List (String × Option String)) :
    Except CliError CommandOutput × List NetCall :=
  match checkUnikIdFormat flags.unikid with
  | .error e => (.error e, [])
  | .ok _ =>
    match askForPassphrases env flags.passphrase flags.secondPassphrase true with
    | (.error e, tr1) => (.error e, tr1)
    | (.ok passphrases, tr1) =>
      match getNextWalletNonceFromPassphrase env passphrases.first with
      | (nonce, tr2) =>
        match (env.createNFTUpdateTransactionV2 flags.unikid properties flags.fee
            nonce passphrases.first passphrases.second).id with
        | none => (.error .invariantViolation, tr1 ++ tr2)
        | some txId =>
          match sendAndWaitConfirmationsIfNeeded env
              (env.createNFTUpdateTransactionV2 flags.unikid properties flags.fee
                nonce passphrases.first passphrases.second)
              flags.awaitBlocks flags.confirmations with
          | (.error e, tr3) => (.error e, tr1 ++ tr2 ++ tr3)
          | (.ok finalTransaction, tr3) =>
            (.ok ⟨flags.unikid, txId, observedConfirmations finalTransaction⟩,
              tr1 ++ tr2 ++ tr3)

/-- Claim C6: when composition yields a transaction structure without an
id (and the preceding local steps succeed), the command aborts with the
invariant-violation error, which is distinct from the rejection error, and
no submission network call is ever made. -/
theorem propertiesUpdateDo_missing_id (env : Env) (flags : UpdateFlags)
    (properties : List (String × Option String))
    (hUnik : checkUnikIdFormat flags.unikid = .ok ())
    (passphrases : CryptoAccountPassphrases) (tr1 : List NetCall)
    (hPass : askForPassphrases env flags.passphrase flags.secondPassphrase true =
      (.ok passphrases, tr1))
    (hBuilder : ∀ u pr f n p s, (env.createNFTUpdateTransactionV2 u pr f n p s).id = none) :
    (propertiesUpdateDo env flags properties).1 = .error .invariantViolation ∧
    (∀ tid, NetCall.sendTransaction tid ∉ (propertiesUpdateDo env flags properties).2) ∧
    (∀ e, (propertiesUpdateDo env flags properties).1 ≠ .error (.rejected e)) := by
  have hdo : propertiesUpdateDo env flags properties =
      (.error .invariantViolation,
        tr1 ++ (getNextWalletNonceFromPassphrase env passphrases.first).2) := by
    unfold propertiesUpdateDo
    simp only [hUnik, hPass, hBuilder]
  have htr1 : tr1 = (askForPassphrases env flags.passphrase flags.secondPassphrase true).2 := by
    rw [hPass]
  refine ⟨?_, ?_, ?_⟩
  · rw [hdo]
  · intro tid hmem
    rw [hdo] at hmem
    rcases askForPassphrases_trace env flags.passphrase flags.secondPassphrase true with h | ⟨a, h⟩
    · rw [htr1, h] at hmem
      simp [getNextWalletNonceFromPassphrase] at hmem
    · rw [htr1, h] at hmem
      simp [getNextWalletNonceFromPassphrase] at hmem
  · intro e
    rw [hdo]
    simp

/-- The witness environment for C6: as `env0`, but the transaction builder
returns a structure without an id. -/
def envNoId : Env :=
  { env0 with createNFTUpdateTransactionV2 := fun _ _ _ _ _ _ => ⟨none⟩ }

/-- Flags used by the C6 witness. -/
def flagsUpdate : UpdateFlags :=
  ⟨tokenId64, some passphrase12, none, 100000000, 3, 1⟩

/-- Witness for C6: with a builder that yields no transaction id, the
update command aborts with the invariant-violation error and never makes a
submission call. -/
theorem propertiesUpdateDo_missing_id_witness :
    (propertiesUpdateDo envNoId flagsUpdate [("k", some "v")]).1 =
      .error .invariantViolation ∧
    (∀ tid, NetCall.sendTransaction tid ∉
      (propertiesUpdateDo envNoId flagsUpdate [("k", some "v")]).2) := by
  have h := propertiesUpdateDo_missing_id envNoId flagsUpdate [("k", some "v")] rfl
    ⟨passphrase12, none⟩ [NetCall.getWallet "ADDR"] rfl (fun _ _ _ _ _ _ => rfl)
  exact ⟨h.1, h.2.1⟩

end UnsCli
